import Mathlib

/-!
Shallow embedding of the PetCare group-collaboration engine
(`backend/services/group_service.py`, `backend/models/group.py`,
`backend/core/database.py`).

Modelling conventions:
* MongoDB collections are Lean lists of records; `find_one` is `List.find?`
  (first match in natural order), `insert_one` appends, and
  `update_one` with a `$set` document updates the first matching record
  (`updateFirst` below).
* Mongo documents are schemaless; a record field of type `Option _` models a
  key that may be absent from the document (`none` = absent).  In particular
  `Group.member_ids` models the legacy `member_ids` array read by
  `get_group_pets` via `group_dict.get("member_ids", [])`, which the `Group`
  pydantic model never emits, and `GroupInvitation.updated_at` models the
  `updated_at` key written by `join_group_by_code`, which the
  `GroupInvitation` model does not declare.
* The wall clock (`datetime.now(timezone.utc)` truncated to integer seconds)
  is a `now : Nat` parameter; all clock reads inside one service call are
  modelled as the same instant.
* Randomly generated identifiers (group ids, invitation ids, invite codes)
  are parameters of the operations.
* `fastapi.HTTPException` is `ServiceError.http status_code detail`;
  a Python runtime error from subscripting a missing document
  (`group_dict["name"]` when `find_one` returned `None`) is
  `ServiceError.typeErr`.
* Python `float` values (`current_weight_kg`) are only ever copied by the
  embedded code, never computed with, so they are carried by an opaque-in-
  spirit `Option Nat` payload.
-/

namespace PetCare

/-- `GroupRole` (str enum) from `backend/models/group.py`. -/
inductive GroupRole
| creator
| member
| viewer
deriving DecidableEq, Repr

/-- `InvitationStatus` (str enum) from `backend/models/group.py`. -/
inductive InvitationStatus
| pending
| accepted
| expired
deriving DecidableEq, Repr

/-- The `.value` string of a `GroupRole`, as used by Python str-enum lookups. -/
def GroupRole.value : GroupRole → String
| .creator => "creator"
| .member => "member"
| .viewer => "viewer"

/-- `GroupMember` pydantic model. -/
structure GroupMember where
  group_id : String
  user_id : String
  role : GroupRole
  created_at : Nat
  updated_at : Nat
  invited_by : Option String
  is_active : Bool
deriving DecidableEq, Repr

/-- `Group` pydantic model, plus the document-level `member_ids` key
(absent, i.e. `none`, on every document produced by the model). -/
structure Group where
  id : String
  name : String
  creator_id : String
  created_at : Nat
  updated_at : Nat
  is_active : Bool
  member_ids : Option (List String)
deriving DecidableEq, Repr

/-- `GroupInvitation` pydantic model, plus the document-level `updated_at`
key written by `join_group_by_code` (not declared by the model). -/
structure GroupInvitation where
  id : String
  group_id : String
  invited_by : String
  invite_code : String
  status : InvitationStatus
  created_at : Nat
  expires_at : Nat
  accepted_at : Option Nat
  accepted_by : Option String
  updated_at : Option Nat
deriving DecidableEq, Repr

/-- The fields of a user document read by the group service. -/
structure User where
  id : String
  name : String
  email : String
deriving DecidableEq, Repr

/-- The fields of a pet document read by `get_group_pets`. -/
structure Pet where
  id : String
  name : String
  pet_type : String
  breed : Option String
  gender : String
  current_weight_kg : Option Nat
  owner_id : String
  group_id : String
  created_at : Nat
  is_active : Bool
deriving DecidableEq, Repr

/-- The persistent store: the collections touched by the group service. -/
structure DB where
  groups : List Group
  members : List GroupMember
  invitations : List GroupInvitation
  users : List User
  pets : List Pet
deriving DecidableEq, Repr

/-- Errors surfaced by a service call: `HTTPException(status_code, detail)`
or a Python runtime error. -/
inductive ServiceError
| http (status_code : Nat) (detail : String)
| typeErr (detail : String)
deriving DecidableEq, Repr

/-- `MongoAsyncClient.update_one` with a `$set` document: update the first
record matching the filter, leave everything else unchanged. -/
def updateFirst (p : α → Bool) (f : α → α) : List α → List α
| [] => []
| x :: xs => if p x then f x :: xs else x :: updateFirst p f xs

/-- The membership filter on `group_id`, `user_id` and `is_active = True`
used by `_get_user_membership`, `update_member_role` and `remove_member`. -/
def membershipMatches (group_id user_id : String) (m : GroupMember) : Bool :=
  m.group_id == group_id && m.user_id == user_id && m.is_active

/-- `GroupService._get_user_membership`. -/
def get_user_membership (db : DB) (group_id user_id : String) : Option GroupMember :=
  db.members.find? (membershipMatches group_id user_id)

/-- `GroupService._is_group_member`. -/
def is_group_member (db : DB) (group_id user_id : String) : Bool :=
  (get_user_membership db group_id user_id).isSome

/-- `GroupService._add_user_to_group`. -/
def add_user_to_group (db : DB) (group_id user_id : String) (role : GroupRole)
    (invited_by : Option String) (now : Nat) : DB × Except ServiceError Unit :=
  match get_user_membership db group_id user_id with
  | some _ => (db, .error (.http 400 "User is already a member of this group"))
  | none =>
    let membership : GroupMember :=
      { group_id := group_id, user_id := user_id, role := role,
        created_at := now, updated_at := now, invited_by := invited_by,
        is_active := true }
    ({ db with members := db.members ++ [membership] }, .ok ())

/-- `GroupPermission.CREATOR_PERMISSIONS`. -/
def CREATOR_PERMISSIONS : List String :=
  ["view_group", "edit_group", "delete_group", "view_members",
   "invite_members", "remove_members", "change_member_roles",
   "create_invitations", "delete_invitations", "manage_group_content",
   "view_group_content"]

/-- `GroupPermission.MEMBER_PERMISSIONS`. -/
def MEMBER_PERMISSIONS : List String :=
  ["view_group", "view_members", "invite_members", "create_invitations",
   "manage_group_content", "view_group_content"]

/-- `GroupPermission.VIEWER_PERMISSIONS`. -/
def VIEWER_PERMISSIONS : List String :=
  ["view_group", "view_members", "view_group_content"]

/-- `GroupPermission.get_permissions`: the role→permission dict lookup with
default empty set.  Roles are str-enum values, so the lookup key is the
role's string value. -/
def get_permissions (role : String) : List String :=
  if role = "creator" then CREATOR_PERMISSIONS
  else if role = "member" then MEMBER_PERMISSIONS
  else if role = "viewer" then VIEWER_PERMISSIONS
  else []

/-- `GroupPermission.can_perform`. -/
def can_perform (role : String) (permission : String) : Bool :=
  (get_permissions role).contains permission

/-- `GroupPermission.can_manage_member`. -/
def can_manage_member (actor_role target_role : GroupRole) : Bool :=
  if actor_role = GroupRole.creator then decide (target_role ≠ GroupRole.creator)
  else false

/-- `GroupPermission.can_assign_role`. -/
def can_assign_role (actor_role target_role : GroupRole) : Bool :=
  if actor_role = GroupRole.creator then decide (target_role ≠ GroupRole.creator)
  else false

/-- The dict returned by a successful `update_member_role`. -/
structure RoleUpdateResult where
  user_id : String
  new_role : String
  updated_by : String
  updated_at : Nat
deriving DecidableEq, Repr

/-- `GroupService.update_member_role`. -/
def update_member_role (db : DB) (group_id : String) (req_user_id : String)
    (req_new_role : GroupRole) (actor_user_id : String) (now : Nat) :
    DB × Except ServiceError RoleUpdateResult :=
  match get_user_membership db group_id actor_user_id with
  | none => (db, .error (.http 403 "You are not a member of this group"))
  | some actor_membership =>
    if actor_membership.role ≠ GroupRole.creator then
      (db, .error (.http 403 "Only group creators can change member roles"))
    else
      match get_user_membership db group_id req_user_id with
      | none => (db, .error (.http 404 "Target user is not a member of this group"))
      | some target_membership =>
        if req_new_role = GroupRole.creator then
          (db, .error (.http 400 "Cannot assign CREATOR role - only one creator per group"))
        else if target_membership.role = GroupRole.creator then
          (db, .error (.http 400 "Cannot change the creator's role"))
        else
          let newMembers :=
            updateFirst (membershipMatches group_id req_user_id)
              (fun m => { m with role := req_new_role, updated_at := now })
              db.members
          let db2 : DB := { db with members := newMembers }
          (db2, .ok { user_id := req_user_id, new_role := req_new_role.value,
                      updated_by := actor_user_id, updated_at := now })

/-- `GroupInfo` response model. -/
structure GroupInfo where
  id : String
  name : String
  creator_id : String
  created_at : Nat
  updated_at : Nat
  member_count : Nat
  is_creator : Bool
  is_active : Bool
deriving DecidableEq, Repr

/-- `GroupService.create_group`.  The generated group id is the `group_id`
parameter; name-length validation happens in the pydantic request model,
outside this function. -/
def create_group (db : DB) (req_name : String) (creator_id : String)
    (group_id : String) (now : Nat) : DB × Except ServiceError GroupInfo :=
  let user_groups := db.groups.filter (fun g => g.creator_id == creator_id)
  if user_groups.length ≥ 10 then
    (db, .error (.http 400 "You have reached the maximum number of groups"))
  else
    let group : Group :=
      { id := group_id, name := req_name, creator_id := creator_id,
        created_at := now, updated_at := now, is_active := true,
        member_ids := none }
    let db1 : DB := { db with groups := db.groups ++ [group] }
    match add_user_to_group db1 group_id creator_id GroupRole.creator none now with
    | (db2, .error e) => (db2, .error e)
    | (db2, .ok _) =>
      (db2, .ok { id := group_id, name := req_name, creator_id := creator_id,
                  created_at := now, updated_at := now, member_count := 1,
                  is_creator := true, is_active := true })

/-- `InvitationInfo` response model. -/
structure InvitationInfo where
  id : String
  group_name : String
  invited_by_name : String
  invite_code : String
  created_at : Nat
  expires_at : Nat
deriving DecidableEq, Repr

/-- The dict returned by a successful `create_invitation`. -/
structure InvitationResponse where
  invitation : InvitationInfo
  invite_code : String
  share_message : String
deriving DecidableEq, Repr

/-- `GroupService.create_invitation`.  The generated invitation id and
invite code are the `invitation_id`/`invite_code` parameters; `user_id` and
`user_name` are the fields of the `UserInfo` argument that are read. -/
def create_invitation (db : DB) (group_id : String) (user_id user_name : String)
    (invitation_id invite_code : String) (now : Nat) :
    DB × Except ServiceError InvitationResponse :=
  if !(is_group_member db group_id user_id) then
    (db, .error (.http 403 "You are not a member of this group"))
  else
    let current_time := now
    let expires_at := now + 7 * 86400
    let invitation : GroupInvitation :=
      { id := invitation_id, group_id := group_id, invited_by := user_id,
        invite_code := invite_code, status := InvitationStatus.pending,
        created_at := current_time, expires_at := expires_at,
        accepted_at := none, accepted_by := none, updated_at := none }
    let db1 : DB := { db with invitations := db.invitations ++ [invitation] }
    match db1.groups.find? (fun g => g.id == group_id) with
    | none => (db1, .error (.typeErr "NoneType is not subscriptable"))
    | some group_dict =>
      (db1, .ok { invitation :=
                    { id := invitation_id, group_name := group_dict.name,
                      invited_by_name := user_name, invite_code := invite_code,
                      created_at := current_time, expires_at := expires_at },
                  invite_code := invite_code,
                  share_message :=
                    "Join my pet care group '" ++ group_dict.name ++
                      "' with code: " ++ invite_code })

/-- The invitation filter used by `join_group_by_code`:
`invite_code` matches, `status == PENDING` and `expires_at` strictly greater
than the current time (Mongo `$gt`). -/
def invitationQuery (invite_code : String) (now : Nat) (inv : GroupInvitation) : Bool :=
  inv.invite_code == invite_code && inv.status == InvitationStatus.pending &&
    now < inv.expires_at

/-- `GroupService.join_group_by_code`. -/
def join_group_by_code (db : DB) (invite_code : String) (user_id : String)
    (now : Nat) : DB × Except ServiceError GroupInfo :=
  let current_time := now
  match db.invitations.find? (invitationQuery invite_code current_time) with
  | none => (db, .error (.http 404 "Invalid or expired invitation code"))
  | some invitation_dict =>
    let group_id := invitation_dict.group_id
    if is_group_member db group_id user_id then
      (db, .error (.http 400 "You are already a member of this group"))
    else
      match add_user_to_group db group_id user_id GroupRole.member
          (some invitation_dict.invited_by) now with
      | (db1, .error e) => (db1, .error e)
      | (db1, .ok _) =>
        let newInvitations :=
          updateFirst (fun inv => inv.id == invitation_dict.id)
            (fun inv =>
              { inv with
                status := InvitationStatus.accepted,
                accepted_by := some user_id,
                updated_at := some current_time })
            db1.invitations
        let db2 : DB := { db1 with invitations := newInvitations }
        match db2.groups.find? (fun g => g.id == group_id && g.is_active) with
        | none => (db2, .error (.http 500 "Failed to join group"))
        | some group_dict =>
          let newGroups :=
            updateFirst (fun g => g.id == group_id)
              (fun g => { g with updated_at := current_time })
              db2.groups
          let db3 : DB := { db2 with groups := newGroups }
          let member_count :=
            (db3.members.filter (fun m => m.group_id == group_id && m.is_active)).length
          (db3, .ok { id := group_dict.id, name := group_dict.name,
                      creator_id := group_dict.creator_id,
                      created_at := group_dict.created_at,
                      updated_at := group_dict.updated_at,
                      member_count := member_count,
                      is_creator := user_id == group_dict.creator_id,
                      is_active := group_dict.is_active })

/-- A pet-info dict produced by `get_group_pets`. -/
structure GroupPetInfo where
  id : String
  name : String
  pet_type : String
  breed : Option String
  gender : String
  current_weight_kg : Option Nat
  owner_id : String
  owner_name : String
  group_id : String
  group_name : String
  created_at : Nat
  is_owned_by_user : Bool
  user_permission : String
deriving DecidableEq, Repr

/-- Stable ascending insertion by key (Python `list.sort(key=...)`). -/
def insertByKey (key : α → String) (x : α) : List α → List α
| [] => [x]
| y :: ys => if key y ≤ key x then y :: insertByKey key x ys else x :: y :: ys

/-- Stable ascending sort by key (Python `list.sort(key=...)`). -/
def sortByKey (key : α → String) (l : List α) : List α :=
  l.foldl (fun acc x => insertByKey key x acc) []

/-- `GroupService.get_group_pets` (read-only, so the store is not returned). -/
def get_group_pets (db : DB) (group_id user_id : String) :
    Except ServiceError (List GroupPetInfo) :=
  match db.groups.find? (fun g => g.id == group_id && g.is_active) with
  | none => .error (.http 404 "Group not found")
  | some group_dict =>
    if !((group_dict.member_ids.getD []).contains user_id) then
      .error (.http 403 "You must be a member of this group to view its pets")
    else
      let user_role := if group_dict.creator_id == user_id then "creator" else "member"
      let pets := db.pets.filter (fun p => p.group_id == group_id && p.is_active)
      let pet_infos := pets.map (fun pet_dict =>
        let owner_name :=
          match db.users.find? (fun u => u.id == pet_dict.owner_id) with
          | some owner => owner.name
          | none => "Unknown"
        { id := pet_dict.id, name := pet_dict.name,
          pet_type := pet_dict.pet_type, breed := pet_dict.breed,
          gender := pet_dict.gender,
          current_weight_kg := pet_dict.current_weight_kg,
          owner_id := pet_dict.owner_id, owner_name := owner_name,
          group_id := pet_dict.group_id, group_name := group_dict.name,
          created_at := pet_dict.created_at,
          is_owned_by_user := pet_dict.owner_id == user_id,
          user_permission :=
            if pet_dict.owner_id == user_id then "owner" else user_role
          : GroupPetInfo })
      .ok (sortByKey (fun p => p.name.toLower) pet_infos)

/-! ### Concrete stores used to exercise the operations -/

/-- An empty store. -/
def emptyDB : DB :=
  { groups := [], members := [], invitations := [], users := [], pets := [] }

/-- Membership of the creator `alice` in group `g1`. -/
def aliceMembership : GroupMember :=
  { group_id := "g1", user_id := "alice", role := GroupRole.creator,
    created_at := 0, updated_at := 0, invited_by := none, is_active := true }

/-- Membership of the plain member `bob` in group `g1`. -/
def bobMembership : GroupMember :=
  { group_id := "g1", user_id := "bob", role := GroupRole.member,
    created_at := 2, updated_at := 2, invited_by := some "alice",
    is_active := true }

/-- The group `g1` created by `alice`. -/
def g1Group : Group :=
  { id := "g1", name := "Pets", creator_id := "alice", created_at := 0,
    updated_at := 0, is_active := true, member_ids := none }

/-- A store with group `g1`, creator `alice` and member `bob`. -/
def roleDB : DB :=
  { groups := [g1Group], members := [aliceMembership, bobMembership],
    invitations := [], users := [], pets := [] }

/-- A pending invitation to `g1` by `alice` with code `CODE`, expiring at
time 604800. -/
def pendingInvitation : GroupInvitation :=
  { id := "inv1", group_id := "g1", invited_by := "alice",
    invite_code := "CODE", status := InvitationStatus.pending,
    created_at := 0, expires_at := 604800, accepted_at := none,
    accepted_by := none, updated_at := none }

/-- A store with group `g1`, its creator `alice`, and a pending invitation. -/
def inviteDB : DB :=
  { groups := [g1Group], members := [aliceMembership],
    invitations := [pendingInvitation], users := [], pets := [] }

/-- A store holding ten soft-deactivated groups all created by `alice`. -/
def tenInactiveDB : DB :=
  { groups := (List.range 10).map (fun i =>
      { id := "g" ++ toString i, name := "G", creator_id := "alice",
        created_at := 0, updated_at := 0, is_active := false,
        member_ids := none }),
    members := [], invitations := [], users := [], pets := [] }

/-- The store produced by `create_group emptyDB "Pets" "alice" "g1" 0`. -/
def createdDB : DB :=
  { groups := [g1Group],
    members := [aliceMembership],
    invitations := [], users := [], pets := [] }

/-- The response produced by `create_group emptyDB "Pets" "alice" "g1" 0`. -/
def createdInfo : GroupInfo :=
  { id := "g1", name := "Pets", creator_id := "alice", created_at := 0,
    updated_at := 0, member_count := 1, is_creator := true, is_active := true }

/-- The store produced by demoting `bob` to VIEWER in `roleDB` at time 7. -/
def roleDBUpdated : DB :=
  { groups := [g1Group],
    members := [aliceMembership,
      { group_id := "g1", user_id := "bob", role := GroupRole.viewer,
        created_at := 2, updated_at := 7, invited_by := some "alice",
        is_active := true }],
    invitations := [], users := [], pets := [] }

/-- The response produced by demoting `bob` to VIEWER in `roleDB` at time 7. -/
def roleUpdateRes : RoleUpdateResult :=
  { user_id := "bob", new_role := "viewer", updated_by := "alice",
    updated_at := 7 }

/-! ### Helper lemmas about the Mongo primitives -/

/-- `find?` skips a prefix in which nothing matches. -/
theorem find?_append_of_none {α} (p : α → Bool) (l1 l2 : List α)
    (h : l1.find? p = none) : (l1 ++ l2).find? p = l2.find? p := by
  induction l1 with
  | nil => rfl
  | cons x xs ih =>
    have hx : ¬ p x = true := by
      cases hpx : p x
      · simp
      · rw [List.find?_cons_of_pos _ hpx] at h
        exact absurd h (by simp)
    rw [List.find?_cons_of_neg _ hx] at h
    rw [List.cons_append, List.find?_cons_of_neg _ hx]
    exact ih h

/-- `update_one` rewrites exactly the first matching record: when the filter
finds some record `x`, the updated list is the original with the single
position of `x` replaced by `f x`. -/
theorem updateFirst_eq_set {α} (p : α → Bool) (f : α → α) (l : List α) (x : α)
    (h : l.find? p = some x) :
    ∃ i, l.get? i = some x ∧ updateFirst p f l = l.set i (f x) := by
  induction l with
  | nil => exact absurd h (by simp)
  | cons y ys ih =>
    cases hpy : p y with
    | true =>
      rw [List.find?_cons_of_pos _ hpy] at h
      obtain rfl : y = x := by injection h
      exact ⟨0, rfl, by simp [updateFirst, hpy]⟩
    | false =>
      rw [List.find?_cons_of_neg _ (by simp [hpy])] at h
      obtain ⟨i, hget, hupd⟩ := ih h
      refine ⟨i + 1, by simpa using hget, ?_⟩
      simp [updateFirst, hpy, hupd]

/-! ### Claim theorems -/

/-- C7: for all actor and target roles drawn from CREATOR, MEMBER, VIEWER,
`can_manage_member` and `can_assign_role` return true exactly when the actor
role is CREATOR and the target role is not CREATOR; in particular both are
false on the pair (CREATOR, CREATOR). -/
theorem can_manage_and_assign_role_characterization :
    (∀ actor_role target_role : GroupRole,
      (can_manage_member actor_role target_role = true ↔
        (actor_role = GroupRole.creator ∧ target_role ≠ GroupRole.creator)) ∧
      (can_assign_role actor_role target_role = true ↔
        (actor_role = GroupRole.creator ∧ target_role ≠ GroupRole.creator))) ∧
    can_manage_member GroupRole.creator GroupRole.creator = false ∧
    can_assign_role GroupRole.creator GroupRole.creator = false := by
  refine ⟨?_, by decide, by decide⟩
  intro a t
  cases a <;> cases t <;> exact ⟨by decide, by decide⟩

/-- C8: the static role→permission map denies `invite_members` to VIEWER,
grants it to MEMBER, denies `remove_members` to MEMBER; and any role string
outside creator/member/viewer gets the empty permission set and is denied
every capability. -/
theorem can_perform_matrix :
    can_perform "viewer" "invite_members" = false ∧
    can_perform "member" "invite_members" = true ∧
    can_perform "member" "remove_members" = false ∧
    (∀ role : String, role ≠ "creator" → role ≠ "member" → role ≠ "viewer" →
      get_permissions role = [] ∧ ∀ cap : String, can_perform role cap = false) := by
  refine ⟨by decide, by decide, by decide, ?_⟩
  intro role h1 h2 h3
  have hperm : get_permissions role = [] := by
    simp [get_permissions, h1, h2, h3]
  exact ⟨hperm, fun cap => by simp [can_perform, hperm]⟩

/-- Witness for C8 at the unrecognized role string "admin". -/
theorem can_perform_matrix_witness :
    get_permissions "admin" = [] ∧ can_perform "admin" "view_group" = false := by
  have h := can_perform_matrix.2.2.2 "admin" (by decide) (by decide) (by decide)
  exact ⟨h.1, h.2 "view_group"⟩

/-- C10: the static permission sets form a chain under inclusion
(VIEWER ⊆ MEMBER ⊆ CREATOR), equivalently `can_perform` is monotone along
VIEWER ≤ MEMBER ≤ CREATOR for every capability. -/
theorem permission_sets_chain :
    VIEWER_PERMISSIONS.all (fun p => MEMBER_PERMISSIONS.contains p) = true ∧
    MEMBER_PERMISSIONS.all (fun p => CREATOR_PERMISSIONS.contains p) = true ∧
    (∀ cap : String, can_perform "viewer" cap = true → can_perform "member" cap = true) ∧
    (∀ cap : String, can_perform "member" cap = true → can_perform "creator" cap = true) := by
  refine ⟨by decide, by decide, ?_, ?_⟩
  · intro cap h
    have hmem : cap ∈ VIEWER_PERMISSIONS := by
      simpa [can_perform, get_permissions] using h
    simp only [VIEWER_PERMISSIONS, List.mem_cons, List.not_mem_nil, or_false] at hmem
    rcases hmem with rfl | rfl | rfl <;> decide
  · intro cap h
    have hmem : cap ∈ MEMBER_PERMISSIONS := by
      simpa [can_perform, get_permissions] using h
    simp only [MEMBER_PERMISSIONS, List.mem_cons, List.not_mem_nil, or_false] at hmem
    rcases hmem with rfl | rfl | rfl | rfl | rfl | rfl <;> decide

/-- Witness for C10 at the capability "view_group". -/
theorem permission_sets_chain_witness :
    can_perform "member" "view_group" = true ∧
    can_perform "creator" "view_group" = true := by
  have h1 := permission_sets_chain.2.2.1 "view_group" (by decide)
  have h2 := permission_sets_chain.2.2.2 "view_group" h1
  exact ⟨h1, h2⟩

/-- C2 (code discrepancy, evaluated): redeeming the pending invitation
`inv1` with code `CODE` as user `bob` at time 100 succeeds, creates a
MEMBER membership with `invited_by` = the inviter `alice`, and marks the
invitation ACCEPTED with `accepted_by = "bob"`; but `accepted_at` stays
`none` — the acceptance time is written to the undeclared document key
`updated_at` instead of the model's `accepted_at` field. -/
theorem redeem_leaves_accepted_at_unset :
    ((join_group_by_code inviteDB "CODE" "bob" 100).2).isOk = true ∧
    (join_group_by_code inviteDB "CODE" "bob" 100).1.members =
      [aliceMembership,
       { group_id := "g1", user_id := "bob", role := GroupRole.member,
         created_at := 100, updated_at := 100, invited_by := some "alice",
         is_active := true }] ∧
    (join_group_by_code inviteDB "CODE" "bob" 100).1.invitations =
      [{ id := "inv1", group_id := "g1", invited_by := "alice",
         invite_code := "CODE", status := InvitationStatus.accepted,
         created_at := 0, expires_at := 604800, accepted_at := none,
         accepted_by := some "bob", updated_at := some 100 }] := by
  exact ⟨rfl, rfl, rfl⟩

/-- Counterexample to C3: in a store holding ten soft-deactivated groups
created by `alice`, the count of her active groups is 0, yet `create_group`
fails with the QuotaExceeded error, because the quota query does not filter
on `is_active`. -/
theorem create_group_quota_counts_inactive :
    (tenInactiveDB.groups.filter
        (fun g => g.creator_id == "alice" && g.is_active)).length = 0 ∧
    (create_group tenInactiveDB "NewGroup" "alice" "gnew" 1000).2 =
      .error (.http 400 "You have reached the maximum number of groups") := by
  exact ⟨rfl, rfl⟩

/-- C3 amended: `create_group` fails with the QuotaExceeded error exactly
when the count of ALL groups the user has created — active or
soft-deactivated alike — is at least 10; below that count (and with no
pre-existing membership under the freshly generated group id) it
succeeds. -/
theorem create_group_quota_all_created (db : DB) (name creator gid : String) (now : Nat) :
    ((create_group db name creator gid now).2 =
        .error (.http 400 "You have reached the maximum number of groups") ↔
      10 ≤ (db.groups.filter (fun g => g.creator_id == creator)).length) ∧
    ((db.groups.filter (fun g => g.creator_id == creator)).length < 10 →
      get_user_membership db gid creator = none →
      ((create_group db name creator gid now).2).isOk = true) := by
  by_cases hq : 10 ≤ (db.groups.filter (fun g => g.creator_id == creator)).length
  · constructor
    · simp [create_group, hq]
    · intro hlt
      omega
  · cases hm : db.members.find? (membershipMatches gid creator) with
    | some m =>
      constructor
      · simp [create_group, hq, add_user_to_group, get_user_membership, hm,
          Except.isOk, Except.toBool]
      · intro hlt hnone
        rw [get_user_membership] at hnone
        rw [hm] at hnone
        cases hnone
    | none =>
      constructor
      · simp [create_group, hq, add_user_to_group, get_user_membership, hm,
          Except.isOk, Except.toBool]
      · intro hlt hnone
        simp [create_group, hq, add_user_to_group, get_user_membership, hm,
          Except.isOk, Except.toBool]

/-- Witness for the amended C3: on an empty store, creating a group
succeeds. -/
theorem create_group_quota_all_created_witness :
    ((create_group emptyDB "Pets" "alice" "g1" 0).2).isOk = true := by
  have h := (create_group_quota_all_created emptyDB "Pets" "alice" "g1" 0).2
  exact h (by decide) (by rfl)

/-- C9: `create_invitation` fails with Forbidden exactly when the actor has
no active membership in the group (any role may invite); on success — here
stated for any store in which the group document exists — the stored
invitation has status PENDING and expiry equal to creation time plus 7
days (604800 seconds). -/
theorem create_invitation_spec (db : DB) (gid uid uname inv_id code : String) (now : Nat) :
    (is_group_member db gid uid = false →
      create_invitation db gid uid uname inv_id code now =
        (db, .error (.http 403 "You are not a member of this group"))) ∧
    (∀ g, is_group_member db gid uid = true →
      db.groups.find? (fun g2 => g2.id == gid) = some g →
      create_invitation db gid uid uname inv_id code now =
        ({ db with invitations := db.invitations ++
            [{ id := inv_id, group_id := gid, invited_by := uid,
               invite_code := code, status := InvitationStatus.pending,
               created_at := now, expires_at := now + 7 * 86400,
               accepted_at := none, accepted_by := none, updated_at := none }] },
         Except.ok
           { invitation :=
               { id := inv_id, group_name := g.name, invited_by_name := uname,
                 invite_code := code, created_at := now,
                 expires_at := now + 7 * 86400 },
             invite_code := code,
             share_message :=
               "Join my pet care group '" ++ g.name ++ "' with code: " ++ code })) ∧
    (((create_invitation db gid uid uname inv_id code now).2).isOk = true →
      is_group_member db gid uid = true) := by
  refine ⟨?_, ?_, ?_⟩
  · intro h
    simp [create_invitation, h]
  · intro g hm hg
    simp [create_invitation, hm, hg]
  · intro hok
    cases hm : is_group_member db gid uid with
    | false =>
      exfalso
      simp [create_invitation, hm, Except.isOk, Except.toBool] at hok
    | true => rfl

/-- Witness for C9: the member `alice` can create an invitation for `g1`. -/
theorem create_invitation_spec_witness :
    ((create_invitation inviteDB "g1" "alice" "Alice" "i2" "c2" 50).2).isOk = true := by
  have h := (create_invitation_spec inviteDB "g1" "alice" "Alice" "i2" "c2" 50).2.1
    g1Group (by rfl) (by rfl)
  rw [h]
  rfl

/-- C1: `join_group_by_code` succeeds only on an invitation whose code
matches, whose status is PENDING and whose expiry is strictly in the
future; if no such row exists it fails with the InvalidOrExpiredCode error,
if the redeemer already has an active membership in the invitation's group
it fails with the AlreadyMember error, and an invitation whose expiry has
passed is never redeemable regardless of its stored status. -/
theorem redeem_requires_pending_unexpired (db : DB) (code uid : String) (now : Nat) :
    (db.invitations.find? (invitationQuery code now) = none →
      (join_group_by_code db code uid now).2 =
        .error (.http 404 "Invalid or expired invitation code")) ∧
    (∀ inv, db.invitations.find? (invitationQuery code now) = some inv →
      is_group_member db inv.group_id uid = true →
      (join_group_by_code db code uid now).2 =
        .error (.http 400 "You are already a member of this group")) ∧
    (∀ info, (join_group_by_code db code uid now).2 = Except.ok info →
      ∃ inv, db.invitations.find? (invitationQuery code now) = some inv ∧
        inv.invite_code = code ∧ inv.status = InvitationStatus.pending ∧
        now < inv.expires_at ∧ is_group_member db inv.group_id uid = false) ∧
    ((∀ inv ∈ db.invitations, inv.invite_code = code → inv.expires_at ≤ now) →
      (join_group_by_code db code uid now).2 =
        .error (.http 404 "Invalid or expired invitation code")) := by
  refine ⟨?_, ?_, ?_, ?_⟩
  · intro h
    simp [join_group_by_code, h]
  · intro inv hf hm
    simp [join_group_by_code, hf, hm]
  · intro info hok
    cases hf : db.invitations.find? (invitationQuery code now) with
    | none => simp [join_group_by_code, hf] at hok
    | some inv =>
      cases hm : is_group_member db inv.group_id uid with
      | true => simp [join_group_by_code, hf, hm] at hok
      | false =>
        have hp := List.find?_some hf
        simp only [invitationQuery, Bool.and_eq_true, beq_iff_eq,
          decide_eq_true_eq] at hp
        exact ⟨inv, rfl, hp.1.1, hp.1.2, hp.2, hm⟩
  · intro hall
    have hnone : db.invitations.find? (invitationQuery code now) = none := by
      rw [List.find?_eq_none]
      intro inv hmem hq
      simp only [invitationQuery, Bool.and_eq_true, beq_iff_eq,
        decide_eq_true_eq] at hq
      have := hall inv hmem hq.1.1
      omega
    simp [join_group_by_code, hnone]

/-- Witness for C1: at the exact expiry instant the stored-PENDING
invitation is no longer redeemable. -/
theorem redeem_requires_pending_unexpired_witness :
    (join_group_by_code inviteDB "CODE" "bob" 604800).2 =
      .error (.http 404 "Invalid or expired invitation code") := by
  exact (redeem_requires_pending_unexpired inviteDB "CODE" "bob" 604800).2.2.2
    (by decide)


/-- C5: `update_member_role` succeeds exactly when the actor has an active
membership with role CREATOR, the target has an active membership whose
current role is not CREATOR, and the requested new role is not CREATOR;
each violated precondition yields the corresponding Forbidden / NotFound /
InvalidRoleAssignment error. -/
theorem update_member_role_preconditions (db : DB) (gid tuid : String)
    (nrole : GroupRole) (actor : String) (now : Nat) :
    (((update_member_role db gid tuid nrole actor now).2).isOk = true ↔
      (∃ am, get_user_membership db gid actor = some am ∧
        am.role = GroupRole.creator) ∧
      (∃ tm, get_user_membership db gid tuid = some tm ∧
        tm.role ≠ GroupRole.creator) ∧
      nrole ≠ GroupRole.creator) ∧
    (get_user_membership db gid actor = none →
      (update_member_role db gid tuid nrole actor now).2 =
        .error (.http 403 "You are not a member of this group")) ∧
    (∀ am, get_user_membership db gid actor = some am →
      am.role ≠ GroupRole.creator →
      (update_member_role db gid tuid nrole actor now).2 =
        .error (.http 403 "Only group creators can change member roles")) ∧
    (∀ am, get_user_membership db gid actor = some am →
      am.role = GroupRole.creator → get_user_membership db gid tuid = none →
      (update_member_role db gid tuid nrole actor now).2 =
        .error (.http 404 "Target user is not a member of this group")) ∧
    (∀ am tm, get_user_membership db gid actor = some am →
      am.role = GroupRole.creator → get_user_membership db gid tuid = some tm →
      nrole = GroupRole.creator →
      (update_member_role db gid tuid nrole actor now).2 =
        .error (.http 400 "Cannot assign CREATOR role - only one creator per group")) ∧
    (∀ am tm, get_user_membership db gid actor = some am →
      am.role = GroupRole.creator → get_user_membership db gid tuid = some tm →
      nrole ≠ GroupRole.creator → tm.role = GroupRole.creator →
      (update_member_role db gid tuid nrole actor now).2 =
        .error (.http 400 "Cannot change the creator's role")) := by
  refine ⟨?_, ?_, ?_, ?_, ?_, ?_⟩
  · cases ha : get_user_membership db gid actor with
    | none => simp [update_member_role, ha, Except.isOk, Except.toBool]
    | some am =>
      by_cases hr : am.role = GroupRole.creator
      · cases ht : get_user_membership db gid tuid with
        | none => simp [update_member_role, ha, ht, hr, Except.isOk, Except.toBool]
        | some tm =>
          by_cases hn : nrole = GroupRole.creator
          · simp [update_member_role, ha, ht, hr, hn, Except.isOk, Except.toBool]
          · by_cases htr : tm.role = GroupRole.creator
            · simp [update_member_role, ha, ht, hr, hn, htr, Except.isOk,
                Except.toBool]
            · simp [update_member_role, ha, ht, hr, hn, htr, Except.isOk,
                Except.toBool]
      · simp [update_member_role, ha, hr, Except.isOk, Except.toBool]
  · intro ha
    simp [update_member_role, ha]
  · intro am ha hr
    simp [update_member_role, ha, hr]
  · intro am ha hr ht
    simp [update_member_role, ha, hr, ht]
  · intro am tm ha hr ht hn
    simp [update_member_role, ha, hr, ht, hn]
  · intro am tm ha hr ht hn htr
    simp [update_member_role, ha, hr, ht, hn, htr]

/-- Witness for C5: the creator `alice` demotes the member `bob` to
VIEWER. -/
theorem update_member_role_preconditions_witness :
    ((update_member_role roleDB "g1" "bob" GroupRole.viewer "alice" 5).2).isOk = true := by
  have h := (update_member_role_preconditions roleDB "g1" "bob"
    GroupRole.viewer "alice" 5).1
  exact h.mpr ⟨⟨aliceMembership, rfl, rfl⟩, ⟨bobMembership, rfl, by decide⟩,
    by decide⟩

/-- C6: a successful `update_member_role` leaves the groups, invitations,
users and pets collections untouched and rewrites exactly one membership
row — the first active (group, target) row — changing only its `role` and
`updated_at` fields. -/
theorem update_member_role_frame (db : DB) (gid tuid : String) (nrole : GroupRole)
    (actor : String) (now : Nat) (db2 : DB) (r : RoleUpdateResult)
    (h : update_member_role db gid tuid nrole actor now = (db2, Except.ok r)) :
    db2.groups = db.groups ∧ db2.invitations = db.invitations ∧
    db2.users = db.users ∧ db2.pets = db.pets ∧
    ∃ i x, db.members.get? i = some x ∧ membershipMatches gid tuid x = true ∧
      db2.members = db.members.set i { x with role := nrole, updated_at := now } := by
  cases ha : get_user_membership db gid actor with
  | none => simp [update_member_role, ha] at h
  | some am =>
    by_cases hr : am.role = GroupRole.creator
    · cases ht : get_user_membership db gid tuid with
      | none => simp [update_member_role, ha, ht, hr] at h
      | some tm =>
        by_cases hn : nrole = GroupRole.creator
        · simp [update_member_role, ha, ht, hr, hn] at h
        · by_cases htr : tm.role = GroupRole.creator
          · simp [update_member_role, ha, ht, hr, hn, htr] at h
          · simp [update_member_role, ha, ht, hr, hn, htr, Prod.mk.injEq] at h
            obtain ⟨hdb, hrr⟩ := h
            have hfind : db.members.find? (membershipMatches gid tuid) = some tm := ht
            obtain ⟨i, hget, hupd⟩ := updateFirst_eq_set (membershipMatches gid tuid)
              (fun m => { m with role := nrole, updated_at := now }) db.members tm hfind
            refine ⟨by rw [← hdb], by rw [← hdb], by rw [← hdb], by rw [← hdb],
              i, tm, hget, List.find?_some hfind, ?_⟩
            rw [← hdb]
            simpa using hupd
    · simp [update_member_role, ha, hr] at h

/-- Witness for C6: demoting `bob` in `roleDB` rewrites exactly his row. -/
theorem update_member_role_frame_witness :
    roleDBUpdated.groups = roleDB.groups ∧
    roleDBUpdated.invitations = roleDB.invitations ∧
    roleDBUpdated.users = roleDB.users ∧ roleDBUpdated.pets = roleDB.pets ∧
    ∃ i x, roleDB.members.get? i = some x ∧
      membershipMatches "g1" "bob" x = true ∧
      roleDBUpdated.members =
        roleDB.members.set i { x with role := GroupRole.viewer, updated_at := 7 } :=
  update_member_role_frame roleDB "g1" "bob" GroupRole.viewer "alice" 7
    roleDBUpdated roleUpdateRes (by rfl)


/-- C4: for any group freshly created through `create_group`, every user —
the creator and members included — gets Forbidden from `get_group_pets`,
because the membership check reads the `member_ids` document key, which
group documents created by `create_group` never contain. -/
theorem get_group_pets_always_forbidden (db : DB) (name creator gid : String)
    (now : Nat) (db2 : DB) (info : GroupInfo)
    (hfresh : ∀ g ∈ db.groups, g.id ≠ gid)
    (hsucc : create_group db name creator gid now = (db2, Except.ok info)) :
    ∀ uid : String, get_group_pets db2 gid uid =
      .error (.http 403 "You must be a member of this group to view its pets") := by
  intro uid
  by_cases hq : 10 ≤ (db.groups.filter (fun g => g.creator_id == creator)).length
  · simp [create_group, hq] at hsucc
  · cases hm : db.members.find? (membershipMatches gid creator) with
    | some m =>
      simp [create_group, hq, add_user_to_group, get_user_membership, hm] at hsucc
    | none =>
      simp [create_group, hq, add_user_to_group, get_user_membership, hm,
        Prod.mk.injEq] at hsucc
      obtain ⟨hdb, hinfo⟩ := hsucc
      have h1 : db.groups.find? (fun g => g.id == gid && g.is_active) = none := by
        rw [List.find?_eq_none]
        intro g hg
        simp [hfresh g hg]
      have h2 : db2.groups.find? (fun g => g.id == gid && g.is_active) =
          some { id := gid, name := name, creator_id := creator,
                 created_at := now, updated_at := now, is_active := true,
                 member_ids := none } := by
        rw [← hdb]
        rw [find?_append_of_none _ _ _ h1]
        simp
      simp [get_group_pets, h2]

/-- Witness for C4: even the creator `alice` is locked out of
`get_group_pets` on her freshly created group. -/
theorem get_group_pets_always_forbidden_witness :
    get_group_pets createdDB "g1" "alice" =
      .error (.http 403 "You must be a member of this group to view its pets") := by
  exact get_group_pets_always_forbidden emptyDB "Pets" "alice" "g1" 0 createdDB
    createdInfo (by intro g hg; cases hg) (by rfl) "alice"

end PetCare
